import Mathlib

/-!
Verification development for the ArogyaCare healthcare backend
(`Backend/backend.py`).

The Python source is shallowly embedded as follows.

* Python numbers (floats used for coordinates, ratings, scores and
  timestamps) are modelled as rationals.  The haversine distance
  `calculate_distance` is additionally modelled over the reals, where its
  algebraic properties are provable.  Wherever a component merely *calls*
  the floating point distance routine, the distance function is taken as
  an explicit parameter `D : ℚ → ℚ → ℚ → ℚ → ℚ` of the embedding, so
  that theorems hold for every possible rounding behaviour of the float
  implementation.
* Python strings are Lean strings; `str.lower` is modelled by mapping
  `Char.toLower` (all directory data is ASCII), and the `in` substring
  operator by an executable infix test on character lists.
* Python truthiness of optional values (`if user_lat and user_lng`,
  `if not latitude`) is modelled explicitly: a missing value (`none`),
  the number `0` and the empty string are falsy.
* `list.sort` / `sort(key=..., reverse=True)` is Python's stable sort.
  A stable sort's output is uniquely determined by the key relation and
  the input order, so it is modelled by `List.insertionSort` with the
  corresponding (total, transitive) relation.
* Network calls (the nominatim provider) are modelled as oracle inputs:
  the bounding-box collection phase of `get_nearest_health_centers`
  (which only issues provider queries and concatenates their results) is
  abstracted by its outcome `boxResults`, and the fallback stage takes a
  `GeoOracle` describing the provider's reverse-geocode and free-text
  answers, each of which may also fail (non-200 status) or raise.
-/

/-! ## Python primitives -/

/-- Python `str.lower()` (the data handled by the backend is ASCII),
written on the underlying character list so that it evaluates by kernel
reduction. -/
def pyLower (s : String) : String :=
  String.mk (s.data.map Char.toLower)

/-- Python substring membership `needle in hay` on character lists. -/
def pyInList (needle : List Char) : List Char → Bool
  | [] => needle.isEmpty
  | c :: rest => needle.isPrefixOf (c :: rest) || pyInList needle rest

/-- Python substring membership `needle in hay` for strings. -/
def pyIn (needle hay : String) : Bool :=
  pyInList needle.toList hay.toList

/-- Truthiness of an optional Python string: `None` and `""` are falsy. -/
def truthyStr : Option String → Bool
  | none => false
  | some s => s ≠ ""

/-- Truthiness of an optional Python number: `None` and `0` are falsy. -/
def truthyQ : Option ℚ → Bool
  | none => false
  | some x => x ≠ 0

/-- Python `a or b` on optional strings: returns `a` when truthy, else `b`. -/
def pyOr (a b : Option String) : Option String :=
  if truthyStr a then a else b

/-- Python `round(x, n)` modelled as rational rounding to `n` decimal
places (`round` is round-half-up on ℚ; the float midpoint behaviour is
immaterial to every claim below). -/
def roundTo (n : ℕ) (x : ℚ) : ℚ :=
  (round (x * 10 ^ n) : ℤ) / 10 ^ n

/-! ## Response cache (`backend.py` lines 37-103)

The module-level dict `cache` maps keys to `(value, timestamp)` pairs;
it is modelled as a function from keys to optional entries, and the
current value of `time.time()` is passed explicitly. -/

/-- `CACHE_DURATION = 3600`, one hour (`backend.py` line 39). -/
def CACHE_DURATION : ℚ := 3600

/-- The in-memory cache: key to `(value, insertion timestamp)`. -/
def PyCache (V : Type) : Type := String → Option (V × ℚ)

/-- The empty cache. -/
def PyCache.empty (V : Type) : PyCache V := fun _ => none

/-- `set_cache(key, value)` (`backend.py` lines 101-103): stores the value
with the current timestamp. -/
def set_cache {V : Type} (key : String) (value : V) (now : ℚ) (c : PyCache V) :
    PyCache V :=
  fun k => if k = key then some (value, now) else c k

/-- `get_from_cache(key)` (`backend.py` lines 91-99): a fresh entry is
returned as is; an expired entry is deleted (`del cache[key]`) and `None`
is returned.  The result is the returned value together with the cache
state after the read. -/
def get_from_cache {V : Type} (now : ℚ) (key : String) (c : PyCache V) :
    Option V × PyCache V :=
  match c key with
  | none => (none, c)
  | some (item, timestamp) =>
    if now - timestamp < CACHE_DURATION then
      (some item, c)
    else
      (none, fun k => if k = key then none else c k)

/-! ## Distance engine (`backend.py` lines 333-348)

`calculate_distance` is the haversine formula with Earth radius 6371 km;
its algebraic contract is stated over the reals. -/

/-- `calculate_distance(lat1, lon1, lat2, lon2)` (`backend.py` lines
333-348): haversine distance, inputs in degrees, output in kilometres. -/
noncomputable def calculate_distance (lat1 lon1 lat2 lon2 : ℝ) : ℝ :=
  let rlat1 := lat1 * (Real.pi / 180)
  let rlon1 := lon1 * (Real.pi / 180)
  let rlat2 := lat2 * (Real.pi / 180)
  let rlon2 := lon2 * (Real.pi / 180)
  let dlat := rlat2 - rlat1
  let dlon := rlon2 - rlon1
  let a := Real.sin (dlat / 2) ^ 2 +
    Real.cos rlat1 * Real.cos rlat2 * Real.sin (dlon / 2) ^ 2
  let c := 2 * Real.arcsin (Real.sqrt a)
  c * 6371

/-! ## Claim C8: cache expiry -/

/-- C8: for every key and value, a read strictly less than the 1-hour
duration after the write returns the stored value unchanged (and leaves
the cache untouched), while a read once the duration has elapsed returns
nothing and deletes that key. -/
theorem C8_cache_expiry {V : Type} (key : String) (v : V) (t now : ℚ)
    (c : PyCache V) :
    (now - t < CACHE_DURATION →
      get_from_cache now key (set_cache key v t c) =
        (some v, set_cache key v t c)) ∧
    (CACHE_DURATION ≤ now - t →
      (get_from_cache now key (set_cache key v t c)).1 = none ∧
      (get_from_cache now key (set_cache key v t c)).2 key = none) := by
  constructor
  · intro h
    simp [get_from_cache, set_cache, h]
  · intro h
    have h2 : ¬ (now - t < CACHE_DURATION) := not_lt.mpr h
    constructor
    · simp [get_from_cache, set_cache, h2]
    · simp [get_from_cache, set_cache, h2]

/-- Witness for C8: a value stored at time 0 is returned unchanged when
read at time 1 (one second later), and at time 3600 (exactly the cache
duration) the value is gone and the key has been evicted. -/
theorem C8_cache_expiry_witness :
    (get_from_cache 1 "k" (set_cache "k" (42 : ℕ) 0 (PyCache.empty ℕ)) =
      (some 42, set_cache "k" 42 0 (PyCache.empty ℕ))) ∧
    ((get_from_cache 3600 "k"
        (set_cache "k" (42 : ℕ) 0 (PyCache.empty ℕ))).1 = none ∧
      (get_from_cache 3600 "k"
        (set_cache "k" (42 : ℕ) 0 (PyCache.empty ℕ))).2 "k" = none) :=
  ⟨(C8_cache_expiry "k" 42 0 1 (PyCache.empty ℕ)).1 (by norm_num [CACHE_DURATION]),
    (C8_cache_expiry "k" 42 0 3600 (PyCache.empty ℕ)).2 (by norm_num [CACHE_DURATION])⟩

/-! ## Claim C9: distance engine algebra -/

/-- C9: the haversine distance vanishes on identical coordinates and is
symmetric in its two coordinate arguments. -/
theorem C9_distance_zero_symm :
    (∀ la lo : ℝ, calculate_distance la lo la lo = 0) ∧
    (∀ la1 lo1 la2 lo2 : ℝ,
      calculate_distance la1 lo1 la2 lo2 = calculate_distance la2 lo2 la1 lo1) := by
  have sinsq : ∀ x y : ℝ,
      Real.sin ((x - y) / 2) ^ 2 = Real.sin ((y - x) / 2) ^ 2 := by
    intro x y
    rw [show (x - y) / 2 = -((y - x) / 2) by ring, Real.sin_neg]
    ring
  constructor
  · intro la lo
    simp [calculate_distance]
  · intro la1 lo1 la2 lo2
    unfold calculate_distance
    have h1 := sinsq (la1 * (Real.pi / 180)) (la2 * (Real.pi / 180))
    have h2 := sinsq (lo1 * (Real.pi / 180)) (lo2 * (Real.pi / 180))
    simp only
    rw [show la1 * (Real.pi / 180) - la2 * (Real.pi / 180) =
        -(la2 * (Real.pi / 180) - la1 * (Real.pi / 180)) by ring]
    rw [show lo1 * (Real.pi / 180) - lo2 * (Real.pi / 180) =
        -(lo2 * (Real.pi / 180) - lo1 * (Real.pi / 180)) by ring]
    rw [neg_div, neg_div, Real.sin_neg, Real.sin_neg]
    ring_nf

/-! ## Static hospital directory (`backend.py` lines 707-878) -/

/-- One entry of `HOSPITAL_DATABASE` (`backend.py` lines 707-860).  The
optional coordinate models the entries that carry `latitude`/`longitude`
keys (ids 1-6); `"latitude" in hospital` is `coords.isSome`. -/
structure Hospital where
  id : ℕ
  name : String
  type : String
  specialties : List String
  rating : ℚ
  phone : String
  availability : String
  location : String
  state : String
  description : String
  beds : ℕ
  established : ℕ
  coords : Option (ℚ × ℚ)
deriving DecidableEq

/-- `HOSPITAL_DATABASE` (`backend.py` lines 707-860), in source order. -/
def HOSPITAL_DATABASE : List Hospital :=
  [ { id := 1
      name := "All India Institute of Medical Sciences (AIIMS)"
      type := "Government Hospital"
      specialties := ["Cardiology", "Neurology", "Oncology", "General Surgery",
        "Orthopedics", "Emergency Medicine"]
      rating := 4.8
      phone := "+91-11-2658-8500"
      availability := "24/7"
      location := "New Delhi"
      state := "Delhi"
      description := "Premier medical institute with advanced healthcare facilities"
      beds := 2478
      established := 1956
      coords := some (28.5665, 77.2071) },
    { id := 2
      name := "Apollo Hospitals"
      type := "Private Hospital"
      specialties := ["Cardiology", "Cardiac Surgery", "Neurology", "Oncology",
        "Transplant Surgery"]
      rating := 4.6
      phone := "+91-44-2829-3333"
      availability := "24/7"
      location := "Chennai"
      state := "Tamil Nadu"
      description := "Leading private healthcare provider with advanced medical technology"
      beds := 550
      established := 1983
      coords := some (13.0827, 80.2707) },
    { id := 3
      name := "Fortis Hospital"
      type := "Private Hospital"
      specialties := ["Cardiology", "Neurosurgery", "Orthopedics", "Gastroenterology",
        "Emergency Medicine"]
      rating := 4.4
      phone := "+91-124-496-2200"
      availability := "24/7"
      location := "Gurgaon"
      state := "Haryana"
      description := "Multi-specialty hospital with cutting-edge medical facilities"
      beds := 355
      established := 2001
      coords := some (28.4595, 77.0266) },
    { id := 4
      name := "Manipal Hospital"
      type := "Private Hospital"
      specialties := ["Cardiology", "Neurology", "Oncology", "Nephrology", "Orthopedics"]
      rating := 4.5
      phone := "+91-80-2502-4444"
      availability := "24/7"
      location := "Bangalore"
      state := "Karnataka"
      description := "Comprehensive healthcare with specialized treatment centers"
      beds := 650
      established := 1991
      coords := some (12.9716, 77.5946) },
    { id := 5
      name := "King George's Medical University"
      type := "Government Hospital"
      specialties := ["General Medicine", "Surgery", "Pediatrics", "Obstetrics",
        "Emergency Medicine"]
      rating := 4.2
      phone := "+91-522-2257-450"
      availability := "24/7"
      location := "Lucknow"
      state := "Uttar Pradesh"
      description := "Leading medical university hospital with teaching facilities"
      beds := 1840
      established := 1911
      coords := some (26.8467, 80.9462) },
    { id := 6
      name := "Christian Medical College"
      type := "Private Hospital"
      specialties := ["Internal Medicine", "Surgery", "Pediatrics", "Obstetrics",
        "Emergency Medicine"]
      rating := 4.7
      phone := "+91-416-228-4000"
      availability := "24/7"
      location := "Vellore"
      state := "Tamil Nadu"
      description := "Renowned medical college hospital with excellent patient care"
      beds := 2718
      established := 1900
      coords := some (12.9165, 79.1325) },
    { id := 7
      name := "Max Super Specialty Hospital"
      type := "Private Hospital"
      specialties := ["Cardiology", "Oncology", "Neurosurgery", "Orthopedics",
        "Gastroenterology"]
      rating := 4.3
      phone := "+91-11-2651-5050"
      availability := "24/7"
      location := "Delhi"
      state := "Delhi"
      description := "Advanced super specialty hospital with international standards"
      beds := 315
      established := 2006
      coords := none },
    { id := 8
      name := "Tata Memorial Hospital"
      type := "Government Hospital"
      specialties := ["Oncology", "Radiation Oncology", "Surgical Oncology",
        "Medical Oncology"]
      rating := 4.6
      phone := "+91-22-2417-7000"
      availability := "24/7"
      location := "Mumbai"
      state := "Maharashtra"
      description := "Premier cancer treatment and research center"
      beds := 629
      established := 1941
      coords := none },
    { id := 9
      name := "Sankara Nethralaya"
      type := "Private Hospital"
      specialties := ["Ophthalmology", "Retina Surgery", "Corneal Transplant",
        "Pediatric Ophthalmology"]
      rating := 4.5
      phone := "+91-44-2827-1616"
      availability := "6 AM - 10 PM"
      location := "Chennai"
      state := "Tamil Nadu"
      description := "Leading eye care hospital with specialized treatments"
      beds := 100
      established := 1978
      coords := none },
    { id := 10
      name := "Medanta - The Medicity"
      type := "Private Hospital"
      specialties := ["Cardiology", "Neurosurgery", "Oncology", "Gastroenterology",
        "Orthopedics"]
      rating := 4.4
      phone := "+91-124-414-1414"
      availability := "24/7"
      location := "Gurgaon"
      state := "Haryana"
      description := "Multi-super specialty hospital with advanced medical technology"
      beds := 1250
      established := 2009
      coords := none } ]

/-- `CONDITION_SPECIALTY_MAP` (`backend.py` lines 863-878), in source
(insertion) order. -/
def CONDITION_SPECIALTY_MAP : List (String × List String) :=
  [ ("heart", ["Cardiology", "Cardiac Surgery", "Interventional Cardiology"]),
    ("brain", ["Neurology", "Neurosurgery", "Neuropsychiatry"]),
    ("cancer", ["Oncology", "Radiation Oncology", "Surgical Oncology",
      "Medical Oncology"]),
    ("bone", ["Orthopedics", "Rheumatology", "Sports Medicine"]),
    ("kidney", ["Nephrology", "Urology", "Renal Transplant"]),
    ("liver", ["Hepatology", "Gastroenterology", "Liver Transplant"]),
    ("lung", ["Pulmonology", "Thoracic Surgery", "Respiratory Medicine"]),
    ("stomach", ["Gastroenterology", "General Surgery", "Digestive Diseases"]),
    ("skin", ["Dermatology", "Plastic Surgery", "Dermatopathology"]),
    ("eye", ["Ophthalmology", "Retina Surgery", "Corneal Transplant"]),
    ("child", ["Pediatrics", "Pediatric Surgery", "Neonatology"]),
    ("pregnancy", ["Obstetrics", "Gynecology", "Maternal Medicine"]),
    ("mental", ["Psychiatry", "Psychology", "Mental Health"]),
    ("emergency", ["Emergency Medicine", "Trauma Surgery", "Critical Care"]) ]

/-- The `relevant_specialties` list built by
`find_hospitals_by_condition_location` (`backend.py` lines 883-893): all
specialty lists of map keywords occurring in the lowercased condition, in
map order, followed by the explicitly supplied specialty when truthy. -/
def relevantSpecialties (condition : String) (specialty : Option String) :
    List String :=
  (CONDITION_SPECIALTY_MAP.filter
      (fun kv => pyIn kv.1 (pyLower condition))).flatMap (fun kv => kv.2) ++
    (if truthyStr specialty then [specialty.getD ""] else [])

/-- The `location_match` test (`backend.py` lines 900-906): case
insensitive substring in either direction against city or state. -/
def locationMatchB (location : String) (h : Hospital) : Bool :=
  pyIn (pyLower location) (pyLower h.location) ||
  pyIn (pyLower location) (pyLower h.state) ||
  pyIn (pyLower h.location) (pyLower location) ||
  pyIn (pyLower h.state) (pyLower location)

/-- The inner `specialty_match` test against a nonempty specialty list
(`backend.py` lines 910-914): some mapped specialty is a case-insensitive
substring of some entry specialty. -/
def specialtyMatchB (relevant : List String) (h : Hospital) : Bool :=
  relevant.any (fun spec =>
    h.specialties.any (fun hspec => pyIn (pyLower spec) (pyLower hspec)))

/-- The full `specialty_match` flag (`backend.py` lines 909-916): when no
specialty is requested every entry counts as a match. -/
def specialtyMatchFlag (relevant : List String) (h : Hospital) : Bool :=
  if relevant.isEmpty then true else specialtyMatchB relevant h

/-- Truthiness of the pair of optional user coordinates: the repeated
Python test `user_lat and user_lng`. -/
def coordsTruthy (ola olg : Option ℚ) : Bool :=
  truthyQ ola && truthyQ olg

/-- The per-entry result dict built by
`find_hospitals_by_condition_location`: a copy of the directory entry
extended with `relevance_score`, `address`, `distance` and
`actual_distance` (`backend.py` lines 919-949).  The user-facing
`distance` string `"X km"` is represented by its numeric content
`distance_km = round(..., 1)`. -/
structure HospitalInfo where
  base : Hospital
  relevance_score : ℚ
  address : String
  distance_km : ℚ
  actual_distance : ℚ
deriving DecidableEq

/-- One iteration of the hospital filter loop (`backend.py` lines
899-949): `none` when the entry matches neither location nor specialty,
otherwise the scored entry.  `D` abstracts the floating point
`calculate_distance`. -/
def buildHospitalInfo (D : ℚ → ℚ → ℚ → ℚ → ℚ) (relevant : List String)
    (location : String) (ola olg : Option ℚ) (h : Hospital) :
    Option HospitalInfo :=
  let locM := locationMatchB location h
  let specM := specialtyMatchFlag relevant h
  if locM || specM then
    let score : ℚ := (if locM then 50 else 0) + (if specM then 30 else 0) +
      h.rating * 5
    let address := h.location ++ ", " ++ h.state
    if coordsTruthy ola olg then
      match h.coords with
      | some (hla, hlo) =>
        let d := D (ola.getD 0) (olg.getD 0) hla hlo
        let bonus : ℚ := if d ≤ 5 then 20 else if d ≤ 10 then 15 else
          if d ≤ 20 then 10 else 0
        some ⟨h, score + bonus, address, roundTo 1 d, d⟩
      | none =>
        some ⟨h, score, address, roundTo 1 (score / 10), score / 10⟩
    else
      some ⟨h, score, address, roundTo 1 (score / 10), score / 10⟩
  else
    none

/-- Result payload of `find_hospitals_by_condition_location`
(`backend.py` lines 960-966). -/
structure HospitalSearchResult where
  hospitals : List HospitalInfo
  suggestedSpecialty : Option String
  totalFound : ℕ
  searchLocation : String
  userCoordinates : Option (ℚ × ℚ)
deriving DecidableEq

/-- `find_hospitals_by_condition_location(condition, location, specialty,
user_lat, user_lng)` (`backend.py` lines 880-966).  Matching entries are
scored, then sorted by true distance (ascending) when both user
coordinates are truthy and by relevance score (descending) otherwise;
both Python sorts are stable, hence the stable `insertionSort`. -/
def find_hospitals_by_condition_location (D : ℚ → ℚ → ℚ → ℚ → ℚ)
    (condition location : String) (specialty : Option String)
    (ola olg : Option ℚ) : HospitalSearchResult :=
  let relevant := relevantSpecialties condition specialty
  let matching := HOSPITAL_DATABASE.filterMap
    (buildHospitalInfo D relevant location ola olg)
  let sorted := if coordsTruthy ola olg then
      matching.insertionSort (fun a b => a.actual_distance ≤ b.actual_distance)
    else
      matching.insertionSort (fun a b => b.relevance_score ≤ a.relevance_score)
  { hospitals := sorted.take 8
    suggestedSpecialty := relevant.head?
    totalFound := matching.length
    searchLocation := location
    userCoordinates := if coordsTruthy ola olg then
      some (ola.getD 0, olg.getD 0) else none }

/-! ## Claims C1-C3: the static directory matcher -/

/-- A concrete instance of the abstracted floating point distance
function, used to instantiate universally quantified theorems at code
paths where the distance function is never consulted. -/
def zeroDist : ℚ → ℚ → ℚ → ℚ → ℚ := fun _ _ _ _ => 0

/-- The Apollo Hospitals entry (`HOSPITAL_DATABASE`, id 2). -/
def apolloHospital : Hospital := HOSPITAL_DATABASE.get ⟨1, by decide⟩

/-- The AIIMS entry (`HOSPITAL_DATABASE`, id 1). -/
def aiimsHospital : Hospital := HOSPITAL_DATABASE.get ⟨0, by decide⟩

/-- The Sankara Nethralaya entry (`HOSPITAL_DATABASE`, id 9). -/
def sankaraHospital : Hospital := HOSPITAL_DATABASE.get ⟨8, by decide⟩

/-- C1: for condition "heart" and location "Chennai" with no coordinates
supplied, the hospital search returns a non-empty list whose first entry
is Apollo Hospitals, the Chennai entry whose specialties include
Cardiology.  The statement is independent of the floating point distance
function `D`, which is never consulted when no coordinates are given. -/
theorem C1_heart_chennai_first_is_apollo (D : ℚ → ℚ → ℚ → ℚ → ℚ) :
    (find_hospitals_by_condition_location D "heart" "Chennai" none
      none none).hospitals ≠ [] ∧
    (find_hospitals_by_condition_location D "heart" "Chennai" none
      none none).hospitals.head?.map HospitalInfo.base = some apolloHospital ∧
    apolloHospital.name = "Apollo Hospitals" ∧
    apolloHospital.location = "Chennai" ∧
    "Cardiology" ∈ apolloHospital.specialties := by
  refine ⟨?_, ?_, by decide, by decide, by decide⟩ <;>
    norm_num +decide [find_hospitals_by_condition_location, HOSPITAL_DATABASE,
      buildHospitalInfo, relevantSpecialties, CONDITION_SPECIALTY_MAP,
      locationMatchB, specialtyMatchB, specialtyMatchFlag, coordsTruthy,
      truthyQ, truthyStr, pyIn, pyInList, pyLower, List.insertionSort,
      List.orderedInsert, apolloHospital]

/-- C2 counterexample: the condition text "chest pain" matches no keyword
of `CONDITION_SPECIALTY_MAP` (the table keys on "heart", which is not a
substring of "chest pain"), so the mapped specialty set is empty, does
not contain "Cardiology", and the search for that condition suggests no
specialty at all. -/
theorem C2_chest_pain_counterexample :
    (relevantSpecialties "chest pain" none).contains "Cardiology" = false ∧
    relevantSpecialties "chest pain" none = [] ∧
    (find_hospitals_by_condition_location zeroDist "chest pain" "Chennai"
      none none none).suggestedSpecialty = none := by
  refine ⟨by decide, by decide, ?_⟩
  show (relevantSpecialties "chest pain" none).head? = none
  decide

/-- C2 amended: the condition-to-specialty table keys on the word
"heart"; for a condition containing "heart" the mapped specialty set
contains "Cardiology" and the suggested specialty is "Cardiology", while
for the condition "chest pain" the mapped set is empty and the suggested
specialty is `None`. -/
theorem C2_amended_heart_maps_to_cardiology (D : ℚ → ℚ → ℚ → ℚ → ℚ)
    (location : String) :
    "Cardiology" ∈ relevantSpecialties "heart" none ∧
    (find_hospitals_by_condition_location D "heart" location none
      none none).suggestedSpecialty = some "Cardiology" ∧
    relevantSpecialties "chest pain" none = [] ∧
    (find_hospitals_by_condition_location D "chest pain" location none
      none none).suggestedSpecialty = none := by
  refine ⟨by decide, ?_, by decide, ?_⟩
  · show (relevantSpecialties "heart" none).head? = some "Cardiology"
    decide
  · show (relevantSpecialties "chest pain" none).head? = none
    decide

/-- Provenance of a scored entry: if the filter loop keeps a directory
entry then the kept record wraps that entry and the entry passed the
location-or-specialty test. -/
theorem buildHospitalInfo_eq_some {D : ℚ → ℚ → ℚ → ℚ → ℚ}
    {relevant : List String} {location : String} {ola olg : Option ℚ}
    {h : Hospital} {info : HospitalInfo}
    (he : buildHospitalInfo D relevant location ola olg h = some info) :
    info.base = h ∧
    (locationMatchB location h || specialtyMatchFlag relevant h) = true := by
  simp only [buildHospitalInfo] at he
  by_cases hc : (locationMatchB location h || specialtyMatchFlag relevant h) = true
  · refine ⟨?_, hc⟩
    rw [if_pos hc] at he
    split at he
    · split at he
      · injection he with he2
        rw [← he2]
      · injection he with he2
        rw [← he2]
    · injection he with he2
      rw [← he2]
  · rw [if_neg hc] at he
    exact absurd he (by simp)

/-- Membership in the returned `hospitals` list implies membership in the
pre-truncation scored list. -/
theorem mem_hospitals_of_find {D : ℚ → ℚ → ℚ → ℚ → ℚ}
    {condition location : String} {specialty : Option String}
    {ola olg : Option ℚ} {info : HospitalInfo}
    (hmem : info ∈ (find_hospitals_by_condition_location D condition location
      specialty ola olg).hospitals) :
    ∃ h ∈ HOSPITAL_DATABASE,
      buildHospitalInfo D (relevantSpecialties condition specialty) location
        ola olg h = some info := by
  unfold find_hospitals_by_condition_location at hmem
  simp only at hmem
  have hmem2 := (List.take_sublist 8 _).subset hmem
  by_cases hct : coordsTruthy ola olg = true
  · rw [if_pos hct] at hmem2
    rw [List.mem_insertionSort] at hmem2
    exact List.mem_filterMap.mp hmem2
  · rw [if_neg hct] at hmem2
    rw [List.mem_insertionSort] at hmem2
    exact List.mem_filterMap.mp hmem2

/-- C3 counterexample: for condition "xyz" (mapped specialty set empty)
and location "zzz", the AIIMS entry has no location match and no
specialty match against the (empty) mapped specialty set, yet it is
returned — in fact first.  Entries without either match are only
excluded when the mapped specialty set is non-empty. -/
theorem C3_unmatched_entry_returned_counterexample :
    relevantSpecialties "xyz" none = [] ∧
    locationMatchB "zzz" aiimsHospital = false ∧
    specialtyMatchB [] aiimsHospital = false ∧
    (find_hospitals_by_condition_location zeroDist "xyz" "zzz" none
      none none).hospitals.head?.map HospitalInfo.base = some aiimsHospital := by
  refine ⟨by decide, by decide, by decide, ?_⟩
  norm_num +decide [find_hospitals_by_condition_location, HOSPITAL_DATABASE,
    buildHospitalInfo, relevantSpecialties, CONDITION_SPECIALTY_MAP,
    locationMatchB, specialtyMatchB, specialtyMatchFlag, coordsTruthy,
    truthyQ, truthyStr, pyIn, pyInList, pyLower, List.insertionSort,
    List.orderedInsert, aiimsHospital]

/-- C3 amended: whenever the mapped specialty set is non-empty, every
returned entry has a location match or a specialty match against that
set; when the mapped set is empty the code treats every entry as a
specialty match, so nothing is excluded. -/
theorem C3_no_match_excluded_amended (D : ℚ → ℚ → ℚ → ℚ → ℚ)
    (condition location : String) (specialty : Option String)
    (ola olg : Option ℚ) (info : HospitalInfo)
    (hrel : relevantSpecialties condition specialty ≠ [])
    (hmem : info ∈ (find_hospitals_by_condition_location D condition location
      specialty ola olg).hospitals) :
    locationMatchB location info.base = true ∨
    specialtyMatchB (relevantSpecialties condition specialty) info.base = true := by
  obtain ⟨h, _, he⟩ := mem_hospitals_of_find hmem
  obtain ⟨hb, hcond⟩ := buildHospitalInfo_eq_some he
  rw [hb]
  have hor : locationMatchB location h = true ∨
      specialtyMatchFlag (relevantSpecialties condition specialty) h = true := by
    simpa using hcond
  rcases hor with hl | hs
  · exact Or.inl hl
  · right
    unfold specialtyMatchFlag at hs
    rw [if_neg (by simpa using hrel)] at hs
    exact hs

/-- Witness for C3 amended: for condition "eye" and location "zz" the
single returned entry (Sankara Nethralaya) indeed has a location or
specialty match. -/
theorem C3_no_match_excluded_amended_witness :
    locationMatchB "zz" (HospitalInfo.base
      ⟨sankaraHospital, 52.5, "Chennai, Tamil Nadu", 5.3, 5.25⟩) = true ∨
    specialtyMatchB (relevantSpecialties "eye" none) (HospitalInfo.base
      ⟨sankaraHospital, 52.5, "Chennai, Tamil Nadu", 5.3, 5.25⟩) = true :=
  C3_no_match_excluded_amended zeroDist "eye" "zz" none none none
    ⟨sankaraHospital, 52.5, "Chennai, Tamil Nadu", 5.3, 5.25⟩
    (by decide)
    (by norm_num +decide [find_hospitals_by_condition_location, HOSPITAL_DATABASE,
      buildHospitalInfo, relevantSpecialties, CONDITION_SPECIALTY_MAP,
      locationMatchB, specialtyMatchB, specialtyMatchFlag, coordsTruthy,
      truthyQ, truthyStr, pyIn, pyInList, pyLower, List.insertionSort,
      List.orderedInsert, sankaraHospital, roundTo, round_eq])

/-! ## Health-center search result processing (`backend.py` lines 248-331)

A `Place` is one parsed element of the nominatim response list
`all_results`.  Entries whose `lat`/`lon` fail to parse are skipped by
the source (`except (ValueError, KeyError)`), so a `Place` carries
already-parsed rational coordinates.  Optional JSON fields read with
`.get(..., "")` are modelled as strings defaulting to `""`; the
`extratags` sub-dict is flattened to its three consulted fields; the
`address` sub-dict is `none` when absent or empty (both are falsy). -/

/-- The consulted fields of the `extratags` sub-dict (`backend.py` lines
292-295). -/
structure ExtraTags where
  phone : String
  website : String
  opening_hours : String
deriving DecidableEq

/-- The consulted fields of the `address` sub-dict (`backend.py` lines
298-307); each is `none` when the key is absent. -/
structure AddressData where
  house_number : Option String
  road : Option String
  suburb : Option String
  city : Option String
  town : Option String
  state : Option String
  postcode : Option String
deriving DecidableEq

/-- One parsed nominatim search result (`backend.py` lines 252-322).
`ptype` is the JSON field `type`. -/
structure Place where
  lat : ℚ
  lon : ℚ
  display_name : String
  ptype : String
  amenity : String
  healthcare : String
  extratags : ExtraTags
  address : Option AddressData
  osm_id : String
  place_id : String
deriving DecidableEq

/-- `facility_name = address_parts[0].strip()` from
`display_name.split(",")` (`backend.py` lines 269-271). -/
def facilityName (p : Place) : String :=
  ((p.display_name.splitOn ",").headD "").trim

/-- The facility category chain (`backend.py` lines 278-289). -/
def facilityType (p : Place) : String :=
  let nameL := pyLower (facilityName p)
  if p.amenity = "hospital" || pyIn "hospital" nameL then "hospital"
  else if p.amenity = "clinic" || pyIn "clinic" nameL then "clinic"
  else if p.amenity = "doctors" || pyIn "doctor" nameL then "doctor"
  else if p.amenity = "pharmacy" || pyIn "pharmacy" nameL then "pharmacy"
  else if pyIn "emergency" (pyLower p.ptype) || pyIn "emergency" nameL then
    "emergency"
  else "medical"

/-- The formatted address (`backend.py` lines 298-309): the non-empty
consulted address parts joined by ", " when an address dict is present
and non-empty, else the raw display name. -/
def formattedAddress (p : Place) : String :=
  match p.address with
  | some a =>
    String.intercalate ", " (([a.house_number.getD "", a.road.getD "",
      a.suburb.getD "", a.city.getD (a.town.getD ""), a.state.getD "",
      a.postcode.getD ""]).filter (fun s => s ≠ ""))
  | none => p.display_name

/-- One entry of the processed result list (`backend.py` lines 311-323).
The stored `distance` is rounded to 2 decimals. -/
structure RankedFacility where
  name : String
  address : String
  latitude : ℚ
  longitude : ℚ
  distance : ℚ
  ftype : String
  phone : String
  website : String
  opening_hours : String
  osm_id : String
  place_id : String
deriving DecidableEq

/-- Builds the result entry for a surviving place at unrounded distance
`dist` (`backend.py` lines 311-323). -/
def buildFacility (p : Place) (dist : ℚ) : RankedFacility :=
  { name := facilityName p
    address := formattedAddress p
    latitude := p.lat
    longitude := p.lon
    distance := roundTo 2 dist
    ftype := facilityType p
    phone := p.extratags.phone
    website := p.extratags.website
    opening_hours := p.extratags.opening_hours
    osm_id := p.osm_id
    place_id := p.place_id }

/-- The deduplication key: coordinates rounded to 4 decimal places
(`backend.py` line 258). -/
def roundKey (p : Place) : ℚ × ℚ :=
  (roundTo 4 p.lat, roundTo 4 p.lon)

/-- The deduplication key of a processed entry (its coordinates are the
unrounded ones of the originating place). -/
def facilityKey (r : RankedFacility) : ℚ × ℚ :=
  (roundTo 4 r.latitude, roundTo 4 r.longitude)

/-- The processing loop of `get_nearest_health_centers` (`backend.py`
lines 249-327): one pass over `all_results`, skipping places whose
rounded coordinate key was already seen (the key is recorded **before**
the distance filter, exactly as `seen_locations.add` precedes the
distance test), then keeping places within `max_distance` of the origin.
`D` abstracts the floating point `calculate_distance`. -/
def processPlaces (D : ℚ → ℚ → ℚ → ℚ → ℚ) (la lo maxd : ℚ) :
    List (ℚ × ℚ) → List Place → List RankedFacility
  | _, [] => []
  | seen, p :: ps =>
    if roundKey p ∈ seen then
      processPlaces D la lo maxd seen ps
    else
      let d := D la lo p.lat p.lon
      if d ≤ maxd then
        buildFacility p d :: processPlaces D la lo maxd (roundKey p :: seen) ps
      else
        processPlaces D la lo maxd (roundKey p :: seen) ps

/-- The final sort and truncation (`backend.py` lines 330-331): stable
sort ascending by the stored (rounded) distance, then the first
`max_results` entries. -/
def rankPlaces (D : ℚ → ℚ → ℚ → ℚ → ℚ) (la lo maxd : ℚ) (maxr : ℕ)
    (cands : List Place) : List RankedFacility :=
  ((processPlaces D la lo maxd [] cands).insertionSort
    (fun a b => a.distance ≤ b.distance)).take maxr

/-! ## Claims C4-C5: deduplication, radius filter, ranking -/

/-- The deduplication key of a built entry is that of its place. -/
theorem facilityKey_build (p : Place) (d : ℚ) :
    facilityKey (buildFacility p d) = roundKey p := rfl

/-- Provenance of a processed entry: it was built from a candidate of the
input list whose distance passed the radius filter. -/
theorem processPlaces_mem {D : ℚ → ℚ → ℚ → ℚ → ℚ} {la lo maxd : ℚ} :
    ∀ {seen : List (ℚ × ℚ)} {cs : List Place} {r : RankedFacility},
      r ∈ processPlaces D la lo maxd seen cs →
      ∃ p, p ∈ cs ∧ r = buildFacility p (D la lo p.lat p.lon) ∧
        D la lo p.lat p.lon ≤ maxd := by
  intro seen cs
  induction cs generalizing seen with
  | nil => intro r hr; simp [processPlaces] at hr
  | cons p ps ih =>
    intro r hr
    simp only [processPlaces] at hr
    split at hr
    · obtain ⟨q, hq, hb, hd⟩ := ih hr
      exact ⟨q, List.mem_cons_of_mem _ hq, hb, hd⟩
    · split at hr
      next hd =>
        rcases List.mem_cons.mp hr with hr1 | hr2
        · exact ⟨p, List.mem_cons_self _ _, hr1, hd⟩
        · obtain ⟨q, hq, hb, hd2⟩ := ih hr2
          exact ⟨q, List.mem_cons_of_mem _ hq, hb, hd2⟩
      next hd =>
        obtain ⟨q, hq, hb, hd2⟩ := ih hr
        exact ⟨q, List.mem_cons_of_mem _ hq, hb, hd2⟩

/-- A processed entry's key never lies in the seen set the loop started
from. -/
theorem processPlaces_key_not_mem {D : ℚ → ℚ → ℚ → ℚ → ℚ} {la lo maxd : ℚ} :
    ∀ {seen : List (ℚ × ℚ)} {cs : List Place} {r : RankedFacility},
      r ∈ processPlaces D la lo maxd seen cs → facilityKey r ∉ seen := by
  intro seen cs
  induction cs generalizing seen with
  | nil => intro r hr; simp [processPlaces] at hr
  | cons p ps ih =>
    intro r hr
    simp only [processPlaces] at hr
    split at hr
    next hin => exact ih hr
    next hns =>
      split at hr
      next hd =>
        rcases List.mem_cons.mp hr with rfl | hr2
        · simpa [facilityKey_build] using hns
        · have h2 := ih hr2
          exact fun hmem => h2 (List.mem_cons_of_mem _ hmem)
      next hd =>
        have h2 := ih hr
        exact fun hmem => h2 (List.mem_cons_of_mem _ hmem)

/-- The processed list has pairwise distinct deduplication keys. -/
theorem processPlaces_pairwise_key {D : ℚ → ℚ → ℚ → ℚ → ℚ} {la lo maxd : ℚ} :
    ∀ (seen : List (ℚ × ℚ)) (cs : List Place),
      (processPlaces D la lo maxd seen cs).Pairwise
        (fun a b => facilityKey a ≠ facilityKey b) := by
  intro seen cs
  induction cs generalizing seen with
  | nil => simp [processPlaces]
  | cons p ps ih =>
    simp only [processPlaces]
    split
    · exact ih _
    · split
      · refine List.Pairwise.cons ?_ (ih _)
        intro r hr he
        have h1 := processPlaces_key_not_mem hr
        rw [facilityKey_build] at he
        exact h1 (by rw [← he]; exact List.mem_cons_self _ _)
      · exact ih _

/-- The processed list preserves discovery order: its coordinates form a
subsequence of the candidate coordinates. -/
theorem processPlaces_coords_sublist {D : ℚ → ℚ → ℚ → ℚ → ℚ}
    {la lo maxd : ℚ} :
    ∀ (seen : List (ℚ × ℚ)) (cs : List Place),
      List.Sublist
        ((processPlaces D la lo maxd seen cs).map
          (fun r => (r.latitude, r.longitude)))
        (cs.map (fun p => (p.lat, p.lon))) := by
  intro seen cs
  induction cs generalizing seen with
  | nil => simp [processPlaces]
  | cons p ps ih =>
    simp only [processPlaces, List.map_cons]
    split
    · exact List.Sublist.cons _ (ih _)
    · split
      · simp only [List.map_cons]
        exact List.Sublist.cons₂ _ (ih _)
      · exact List.Sublist.cons _ (ih _)

/-- First occurrence wins: every processed entry comes from the first
candidate carrying its (rounded) deduplication key. -/
theorem processPlaces_first_occ {D : ℚ → ℚ → ℚ → ℚ → ℚ} {la lo maxd : ℚ} :
    ∀ {seen : List (ℚ × ℚ)} {cs : List Place} {r : RankedFacility},
      r ∈ processPlaces D la lo maxd seen cs →
      ∃ l1 p l2, cs = l1 ++ p :: l2 ∧
        r = buildFacility p (D la lo p.lat p.lon) ∧
        roundKey p ∉ seen ∧
        ∀ q ∈ l1, roundKey q ≠ roundKey p := by
  intro seen cs
  induction cs generalizing seen with
  | nil => intro r hr; simp [processPlaces] at hr
  | cons p ps ih =>
    intro r hr
    simp only [processPlaces] at hr
    split at hr
    next hin =>
      obtain ⟨l1, q, l2, hcs, hb, hnot, hall⟩ := ih hr
      refine ⟨p :: l1, q, l2, by simp [hcs], hb, hnot, ?_⟩
      intro x hx
      rcases List.mem_cons.mp hx with rfl | hx2
      · intro he
        exact hnot (he ▸ hin)
      · exact hall x hx2
    next hns =>
      split at hr
      next hd =>
        rcases List.mem_cons.mp hr with rfl | hr2
        · exact ⟨[], p, ps, rfl, rfl, hns, by simp⟩
        · obtain ⟨l1, q, l2, hcs, hb, hnot, hall⟩ := ih hr2
          have hq1 : roundKey q ∉ seen :=
            fun h => hnot (List.mem_cons_of_mem _ h)
          have hq2 : roundKey q ≠ roundKey p :=
            fun h => hnot (by rw [h]; exact List.mem_cons_self _ _)
          refine ⟨p :: l1, q, l2, by simp [hcs], hb, hq1, ?_⟩
          intro x hx
          rcases List.mem_cons.mp hx with rfl | hx2
          · exact fun h => hq2 h.symm
          · exact hall x hx2
      next hd =>
        obtain ⟨l1, q, l2, hcs, hb, hnot, hall⟩ := ih hr
        have hq1 : roundKey q ∉ seen :=
          fun h => hnot (List.mem_cons_of_mem _ h)
        have hq2 : roundKey q ≠ roundKey p :=
          fun h => hnot (by rw [h]; exact List.mem_cons_self _ _)
        refine ⟨p :: l1, q, l2, by simp [hcs], hb, hq1, ?_⟩
        intro x hx
        rcases List.mem_cons.mp hx with rfl | hx2
        · exact fun h => hq2 h.symm
        · exact hall x hx2

/-- Two distinct members of a list occur as a pair subsequence in one of
the two orders. -/
theorem mem_mem_pair_sublist {α : Type} {a b : α} :
    ∀ {l : List α}, a ∈ l → b ∈ l → a ≠ b →
      List.Sublist [a, b] l ∨ List.Sublist [b, a] l := by
  intro l
  induction l with
  | nil => intro ha; simp at ha
  | cons x t ih =>
    intro ha hb hne
    rcases List.mem_cons.mp ha with rfl | ha2
    · have hb2 : b ∈ t := by
        rcases List.mem_cons.mp hb with rfl | h
        · exact absurd rfl hne
        · exact h
      exact Or.inl (List.Sublist.cons₂ _ (List.singleton_sublist.mpr hb2))
    · rcases List.mem_cons.mp hb with rfl | hb2
      · exact Or.inr (List.Sublist.cons₂ _ (List.singleton_sublist.mpr ha2))
      · rcases ih ha2 hb2 hne with h | h
        · exact Or.inl (List.Sublist.cons _ h)
        · exact Or.inr (List.Sublist.cons _ h)

/-- In a duplicate-free list a pair cannot occur as a subsequence in both
orders unless its components coincide. -/
theorem nodup_pair_sublist_eq {α : Type} {a b : α} :
    ∀ {l : List α}, l.Nodup → List.Sublist [a, b] l → List.Sublist [b, a] l →
      a = b := by
  intro l
  induction l with
  | nil => intro _ h; exact absurd h (by simp)
  | cons x t ih =>
    intro hnd h1 h2
    have hx : x ∉ t := (List.nodup_cons.mp hnd).1
    have ht : t.Nodup := (List.nodup_cons.mp hnd).2
    cases h1 with
    | cons _ h1t =>
      cases h2 with
      | cons _ h2t => exact ih ht h1t h2t
      | cons₂ _ h2t => exact absurd (h1t.subset (by simp)) hx
    | cons₂ _ h1t =>
      cases h2 with
      | cons _ h2t => exact absurd (h2t.subset (by simp)) hx
      | cons₂ _ h2t => rfl

/-- A concrete candidate at (12.9716, 77.5946). -/
def samplePlaceA : Place :=
  { lat := 12.9716
    lon := 77.5946
    display_name := "Manipal Hospital, Bangalore"
    ptype := "hospital"
    amenity := "hospital"
    healthcare := ""
    extratags := ⟨"", "", ""⟩
    address := none
    osm_id := "1"
    place_id := "1" }

/-- A concrete candidate at (12.97161, 77.59461), within 4-decimal
rounding of `samplePlaceA`. -/
def samplePlaceB : Place :=
  { lat := 12.97161
    lon := 77.59461
    display_name := "Manipal Hospital Annex, Bangalore"
    ptype := "hospital"
    amenity := "hospital"
    healthcare := ""
    extratags := ⟨"", "", ""⟩
    address := none
    osm_id := "2"
    place_id := "2" }

/-- C4: the ranker output only contains candidates whose computed
distance is at most `max_distance` (with the stored distance being the
2-decimal rounding of the computed one), is sorted ascending by the
stored distance, has length at most `max_results`, breaks distance ties
by the order of the pre-sort processed list, and that processed list
preserves the candidates' discovery order. -/
theorem C4_ranker_contract (D : ℚ → ℚ → ℚ → ℚ → ℚ) (cands : List Place)
    (la lo maxd : ℚ) (maxr : ℕ) :
    (∀ r ∈ rankPlaces D la lo maxd maxr cands,
      ∃ p ∈ cands, r.latitude = p.lat ∧ r.longitude = p.lon ∧
        D la lo p.lat p.lon ≤ maxd ∧
        r.distance = roundTo 2 (D la lo p.lat p.lon)) ∧
    (rankPlaces D la lo maxd maxr cands).Pairwise
      (fun a b => a.distance ≤ b.distance) ∧
    (rankPlaces D la lo maxd maxr cands).length ≤ maxr ∧
    (∀ a b, List.Sublist [a, b] (rankPlaces D la lo maxd maxr cands) →
      a.distance = b.distance →
      List.Sublist [a, b] (processPlaces D la lo maxd [] cands)) ∧
    List.Sublist
      ((processPlaces D la lo maxd [] cands).map
        (fun r => (r.latitude, r.longitude)))
      (cands.map (fun p => (p.lat, p.lon))) := by
  haveI hTot : IsTotal RankedFacility
      (fun a b => a.distance ≤ b.distance) := ⟨fun a b => le_total _ _⟩
  haveI hTrans : IsTrans RankedFacility
      (fun a b => a.distance ≤ b.distance) := ⟨fun _ _ _ => le_trans⟩
  have hkey : (processPlaces D la lo maxd [] cands).Pairwise
      (fun a b => facilityKey a ≠ facilityKey b) :=
    processPlaces_pairwise_key [] cands
  have hnd : (processPlaces D la lo maxd [] cands).Nodup :=
    hkey.imp (fun hne heq => hne (by rw [heq]))
  have hsorted := List.sorted_insertionSort
    (fun a b : RankedFacility => a.distance ≤ b.distance)
    (processPlaces D la lo maxd [] cands)
  have hsnd : ((processPlaces D la lo maxd [] cands).insertionSort
      (fun a b => a.distance ≤ b.distance)).Nodup :=
    (List.perm_insertionSort _ _).nodup_iff.mpr hnd
  refine ⟨?_, ?_, ?_, ?_, processPlaces_coords_sublist [] cands⟩
  · intro r hr
    have hr2 : r ∈ (processPlaces D la lo maxd [] cands).insertionSort
        (fun a b => a.distance ≤ b.distance) :=
      (List.take_sublist _ _).subset hr
    obtain ⟨p, hp, hb, hd⟩ := processPlaces_mem
      ((List.mem_insertionSort _).mp hr2)
    subst hb
    exact ⟨p, hp, rfl, rfl, hd, rfl⟩
  · exact List.Pairwise.sublist (List.take_sublist _ _) hsorted
  · exact List.length_take_le _ _
  · intro a b hab heq
    have hab2 : List.Sublist [a, b]
        ((processPlaces D la lo maxd [] cands).insertionSort
          (fun a b => a.distance ≤ b.distance)) :=
      hab.trans (List.take_sublist _ _)
    have ha : a ∈ processPlaces D la lo maxd [] cands :=
      (List.mem_insertionSort _).mp (hab2.subset (by simp))
    have hb : b ∈ processPlaces D la lo maxd [] cands :=
      (List.mem_insertionSort _).mp (hab2.subset (by simp))
    by_cases hne : a = b
    · subst hne
      exact absurd (List.Sublist.nodup hab2 hsnd) (by simp)
    · rcases mem_mem_pair_sublist ha hb hne with h | h
      · exact h
      · exfalso
        have h2 : List.Sublist [b, a]
            ((processPlaces D la lo maxd [] cands).insertionSort
              (fun a b => a.distance ≤ b.distance)) :=
          List.pair_sublist_insertionSort (le_of_eq heq.symm) h
        exact hne (nodup_pair_sublist_eq hsnd hab2 h2)

/-- Witness for C4: a single candidate at the origin with the
degenerate distance function is returned, and its provenance
(membership, radius bound, rounded distance) holds. -/
theorem C4_ranker_contract_witness :
    ∃ p ∈ [samplePlaceA],
      (buildFacility samplePlaceA 0).latitude = p.lat ∧
      (buildFacility samplePlaceA 0).longitude = p.lon ∧
      zeroDist 12.9716 77.5946 p.lat p.lon ≤ 25 ∧
      (buildFacility samplePlaceA 0).distance =
        roundTo 2 (zeroDist 12.9716 77.5946 p.lat p.lon) :=
  (C4_ranker_contract zeroDist [samplePlaceA] 12.9716 77.5946 25 20).1
    (buildFacility samplePlaceA 0)
    (by norm_num [rankPlaces, processPlaces, zeroDist, List.insertionSort,
      List.orderedInsert, List.take, samplePlaceA])

/-- C5: (universally) the ranker output has pairwise distinct 4-decimal
coordinate keys and every output entry stems from the first candidate in
discovery order bearing its key; (concretely) the two candidates at
(12.9716, 77.5946) and (12.97161, 77.59461) — equal after rounding to 4
decimals — yield exactly one retained facility whenever the origin
distance of the first passes the radius filter. -/
theorem C5_dedup_first_occurrence_wins :
    (∀ (D : ℚ → ℚ → ℚ → ℚ → ℚ) (cands : List Place) (la lo maxd : ℚ)
        (maxr : ℕ),
      (rankPlaces D la lo maxd maxr cands).Pairwise
        (fun a b => facilityKey a ≠ facilityKey b) ∧
      (∀ r ∈ rankPlaces D la lo maxd maxr cands,
        ∃ l1 p l2, cands = l1 ++ p :: l2 ∧ r.latitude = p.lat ∧
          r.longitude = p.lon ∧ ∀ q ∈ l1, roundKey q ≠ roundKey p)) ∧
    (∀ D : ℚ → ℚ → ℚ → ℚ → ℚ,
      D 12.9716 77.5946 12.9716 77.5946 ≤ 25 →
      (rankPlaces D 12.9716 77.5946 25 20
        [samplePlaceA, samplePlaceB]).length = 1) := by
  constructor
  · intro D cands la lo maxd maxr
    have hkey : (processPlaces D la lo maxd [] cands).Pairwise
        (fun a b => facilityKey a ≠ facilityKey b) :=
      processPlaces_pairwise_key [] cands
    constructor
    · have hsortkey : ((processPlaces D la lo maxd [] cands).insertionSort
          (fun a b => a.distance ≤ b.distance)).Pairwise
          (fun a b => facilityKey a ≠ facilityKey b) :=
        ((List.perm_insertionSort _ _).pairwise_iff
          (fun h => fun he => h he.symm)).mpr hkey
      exact List.Pairwise.sublist (List.take_sublist _ _) hsortkey
    · intro r hr
      have hr2 : r ∈ (processPlaces D la lo maxd [] cands).insertionSort
          (fun a b => a.distance ≤ b.distance) :=
        (List.take_sublist _ _).subset hr
      obtain ⟨l1, p, l2, hcs, hb, _, hall⟩ := processPlaces_first_occ
        ((List.mem_insertionSort _).mp hr2)
      subst hb
      exact ⟨l1, p, l2, hcs, rfl, rfl, hall⟩
  · intro D hD
    have hk : roundKey samplePlaceB = roundKey samplePlaceA := by
      unfold roundKey roundTo samplePlaceA samplePlaceB
      norm_num [round_eq]
    have h1 : processPlaces D 12.9716 77.5946 25 [] [samplePlaceA, samplePlaceB] =
        [buildFacility samplePlaceA
          (D 12.9716 77.5946 samplePlaceA.lat samplePlaceA.lon)] := by
      simp only [processPlaces, List.not_mem_nil, if_false, List.mem_singleton]
      rw [if_pos (show D 12.9716 77.5946 samplePlaceA.lat samplePlaceA.lon ≤ 25
        from hD)]
      rw [if_pos hk]
    simp [rankPlaces, h1, List.insertionSort]

/-- Witness for C5: with the degenerate distance function the two
4-decimal-equal candidates produce a single retained facility. -/
theorem C5_dedup_first_occurrence_wins_witness :
    (rankPlaces zeroDist 12.9716 77.5946 25 20
      [samplePlaceA, samplePlaceB]).length = 1 :=
  C5_dedup_first_occurrence_wins.2 zeroDist (by norm_num [zeroDist])

/-! ## Fallback cascade of `get_nearest_health_centers`
(`backend.py` lines 215-246)

When the bounding-box phase collected nothing, the source reverse
geocodes the origin once and then issues up to two free-text provider
queries (`hospital+{city}`, then `hospital+{state}`); the whole block
is guarded by one `try`, so an exception aborts the remaining stages.
Provider interactions are modelled by an oracle; the emitted call log
records the temporal order of the attempts. -/

/-- Outcome of one provider request: an exception during the request, a
non-200 response, or a 200 response with a parsed body. -/
inductive ProviderResponse where
  | exn : ProviderResponse
  | failure : ProviderResponse
  | success (places : List Place) : ProviderResponse
deriving DecidableEq

/-- The consulted fields of the reverse-geocode `address` object
(`backend.py` lines 223-228); each is `none` when absent. -/
structure ReverseAddress where
  city : Option String
  town : Option String
  village : Option String
  hamlet : Option String
  state : Option String
  country : Option String
deriving DecidableEq

/-- Outcome of the reverse-geocode request. -/
inductive ReverseResponse where
  | exn : ReverseResponse
  | failure : ReverseResponse
  | success (addr : ReverseAddress) : ReverseResponse
deriving DecidableEq

/-- A provider call attempted by the fallback block, in temporal order:
the reverse geocode, the city free-text search `hospital+{city}`, or the
state free-text search `hospital+{state}`. -/
inductive NominatimCall where
  | reverseGeocode : NominatimCall
  | cityQuery (city : String) : NominatimCall
  | stateQuery (state : String) : NominatimCall
deriving DecidableEq

/-- The provider's behaviour during the fallback block. -/
structure GeoOracle where
  reverse : ReverseResponse
  citySearch : String → ProviderResponse
  stateSearch : String → ProviderResponse

/-- The state-level search step (`backend.py` lines 236-240): attempted
only when a truthy state name is known and the accumulated results are
still empty; a 200 response extends the results. -/
def stateStage (o : GeoOracle) (acc : List Place) (log : List NominatimCall)
    (state : Option String) : List Place × List NominatimCall :=
  if truthyStr state && acc.isEmpty then
    let sname := state.getD ""
    match o.stateSearch sname with
    | .exn => (acc, log ++ [.stateQuery sname])
    | .failure => (acc, log ++ [.stateQuery sname])
    | .success ps => (acc ++ ps, log ++ [.stateQuery sname])
  else
    (acc, log)

/-- The fallback block (`backend.py` lines 216-243), entered with empty
results: reverse geocode once; on a 200 response take the first truthy
locality name of city, town, village, hamlet (Python `or` chain) and,
when truthy, run the city search; an exception there aborts the rest
(the enclosing `try`), otherwise the state search may follow. -/
def geoFallback (o : GeoOracle) : List Place × List NominatimCall :=
  match o.reverse with
  | .exn => ([], [.reverseGeocode])
  | .failure => ([], [.reverseGeocode])
  | .success addr =>
    let city := pyOr addr.city (pyOr addr.town (pyOr addr.village addr.hamlet))
    if truthyStr city then
      let cname := city.getD ""
      match o.citySearch cname with
      | .exn => ([], [.reverseGeocode, .cityQuery cname])
      | .failure => stateStage o [] [.reverseGeocode, .cityQuery cname] addr.state
      | .success ps => stateStage o ps [.reverseGeocode, .cityQuery cname] addr.state
    else
      stateStage o [] [.reverseGeocode] addr.state

/-- `get_nearest_health_centers(latitude, longitude, max_distance,
max_results)` (`backend.py` lines 151-331).  The bounding-box collection
phase (lines 163-213), which only issues provider queries and
concatenates their parsed results, is abstracted by its outcome
`boxResults`; the fallback block runs exactly when it produced nothing.
An empty final candidate list yields the structured error dict; a
non-empty one is deduplicated, radius-filtered, sorted and truncated by
`rankPlaces`.  The second component is the fallback call log. -/
def get_nearest_health_centers (D : ℚ → ℚ → ℚ → ℚ → ℚ)
    (boxResults : List Place) (o : GeoOracle) (la lo maxd : ℚ) (maxr : ℕ) :
    Except String (List RankedFacility) × List NominatimCall :=
  let res := if boxResults.isEmpty then geoFallback o else (boxResults, [])
  if res.1.isEmpty then
    (Except.error
      "No health centers found nearby. Please try expanding your search radius.",
      res.2)
  else
    (Except.ok (rankPlaces D la lo maxd maxr res.1), res.2)

/-! ## The `/health-centers` endpoint (`backend.py` lines 1145-1196) -/

/-- The `search_metadata` object (`backend.py` lines 1177-1182). -/
structure SearchMetadata where
  total_found : ℕ
  search_radius_km : ℚ
  user_location : ℚ × ℚ
  nearest_distance_km : ℚ
deriving DecidableEq

/-- The possible responses of the `/health-centers` endpoint:
a 400 validation error, the 404 carrying the search's error dict, the
404 for an empty success list (carrying the radius echoed in its
suggestion string), or the 200 payload. -/
inductive HCResponse (R : Type) where
  | badRequest (msg : String) : HCResponse R
  | notFoundErr (msg : String) : HCResponse R
  | notFoundEmpty (max_distance : ℚ) : HCResponse R
  | success (centers : List RankedFacility) (route : R)
      (meta : SearchMetadata) : HCResponse R

/-- `find_health_centers()` (`backend.py` lines 1145-1196): presence of
the coordinates is tested by truthiness (`if not latitude or not
longitude`), then the range check, then the search; an error dict from
the search is forwarded with status 404, an empty list yields the
"no health centers found nearby" 404, and otherwise a route to the first
(nearest) center is fetched and the payload assembled.  `searcher`
abstracts `get_nearest_health_centers` and `route` the `get_route`
provider call. -/
def find_health_centers {R : Type} (lat lng : Option ℚ) (maxd : ℚ) (maxr : ℕ)
    (searcher : ℚ → ℚ → ℚ → ℕ → Except String (List RankedFacility))
    (route : ℚ → ℚ → ℚ → ℚ → R) : HCResponse R :=
  if !(truthyQ lat) || !(truthyQ lng) then
    .badRequest "Latitude and longitude are required"
  else
    let la := lat.getD 0
    let lo := lng.getD 0
    if ¬(-90 ≤ la ∧ la ≤ 90) ∨ ¬(-180 ≤ lo ∧ lo ≤ 180) then
      .badRequest "Invalid coordinates provided"
    else
      match searcher la lo maxd maxr with
      | .error e => .notFoundErr e
      | .ok [] => .notFoundEmpty maxd
      | .ok (c :: cs) =>
        .success (c :: cs) (route la lo c.latitude c.longitude)
          ⟨(c :: cs).length, maxd, (la, lo), c.distance⟩

/-! ## Claim C6: the fallback cascade stages -/

/-- The call log of a search entered with an empty bounding-box phase is
exactly the fallback block's log. -/
theorem get_nearest_empty_box_snd (D : ℚ → ℚ → ℚ → ℚ → ℚ) (o : GeoOracle)
    (la lo maxd : ℚ) (maxr : ℕ) :
    (get_nearest_health_centers D [] o la lo maxd maxr).2 = (geoFallback o).2 := by
  unfold get_nearest_health_centers
  simp only [List.isEmpty_nil, if_true]
  split <;> rfl

/-- The state-stage either leaves the log unchanged or appends exactly
one state query. -/
theorem stateStage_snd (o : GeoOracle) (acc : List Place)
    (log : List NominatimCall) (state : Option String) :
    (stateStage o acc log state).2 = log ∨
    ∃ s, (stateStage o acc log state).2 =
      log ++ [NominatimCall.stateQuery s] := by
  unfold stateStage
  split
  · rcases hs : o.stateSearch (state.getD "") with _ | _ | ps <;>
      simp only [hs] <;> exact Or.inr ⟨_, rfl⟩
  · exact Or.inl rfl

/-- The fallback block's log is the reverse geocode followed only by
free-text queries. -/
theorem geoFallback_log_shape (o : GeoOracle) :
    ∃ rest, (geoFallback o).2 = NominatimCall.reverseGeocode :: rest ∧
      ∀ c ∈ rest, c ≠ NominatimCall.reverseGeocode := by
  unfold geoFallback
  rcases o.reverse with _ | _ | addr
  · exact ⟨[], rfl, by simp⟩
  · exact ⟨[], rfl, by simp⟩
  · simp only
    split
    · rcases hc : o.citySearch ((pyOr addr.city (pyOr addr.town
          (pyOr addr.village addr.hamlet))).getD "") with _ | _ | ps <;>
        simp only [hc]
      · exact ⟨[NominatimCall.cityQuery _], rfl, by simp⟩
      · rcases stateStage_snd o []
            [NominatimCall.reverseGeocode, NominatimCall.cityQuery
              ((pyOr addr.city (pyOr addr.town (pyOr addr.village
                addr.hamlet))).getD "")] addr.state with h | ⟨s, h⟩
        · exact ⟨[NominatimCall.cityQuery _], h, by simp⟩
        · exact ⟨[NominatimCall.cityQuery _, NominatimCall.stateQuery s],
            h, by simp⟩
      · rcases stateStage_snd o ps
            [NominatimCall.reverseGeocode, NominatimCall.cityQuery
              ((pyOr addr.city (pyOr addr.town (pyOr addr.village
                addr.hamlet))).getD "")] addr.state with h | ⟨s, h⟩
        · exact ⟨[NominatimCall.cityQuery _], h, by simp⟩
        · exact ⟨[NominatimCall.cityQuery _, NominatimCall.stateQuery s],
            h, by simp⟩
    · rcases stateStage_snd o [] [NominatimCall.reverseGeocode]
          addr.state with h | ⟨s, h⟩
      · exact ⟨[], h, by simp⟩
      · exact ⟨[NominatimCall.stateQuery s], h, by simp⟩

/-- The fallback block's log starts with the single reverse geocode. -/
theorem geoFallback_log_reverse_once (o : GeoOracle) :
    (geoFallback o).2.head? = some NominatimCall.reverseGeocode ∧
    ∀ c ∈ (geoFallback o).2.tail, c ≠ NominatimCall.reverseGeocode := by
  obtain ⟨rest, hsh, hall⟩ := geoFallback_log_shape o
  rw [hsh]
  exact ⟨rfl, hall⟩

/-- When a truthy state name is known and the accumulated results are
empty, the state-level free-text query is attempted. -/
theorem stateStage_query_mem (o : GeoOracle) (log : List NominatimCall)
    (state : Option String) (hs : truthyStr state = true) :
    NominatimCall.stateQuery (state.getD "") ∈ (stateStage o [] log state).2 := by
  unfold stateStage
  rw [if_pos (by simp [hs])]
  rcases hq : o.stateSearch (state.getD "") with _ | _ | ps <;>
    simp only [hq] <;> simp

/-- The state query is attempted whenever the reverse geocode succeeded,
the locality (city) stage yielded no usable result without raising, and
a truthy state name is known. -/
theorem geoFallback_state_attempted (o : GeoOracle) (addr : ReverseAddress)
    (hr : o.reverse = ReverseResponse.success addr)
    (hstate : truthyStr addr.state = true)
    (hcity : truthyStr (pyOr addr.city (pyOr addr.town
        (pyOr addr.village addr.hamlet))) = false ∨
      o.citySearch ((pyOr addr.city (pyOr addr.town
        (pyOr addr.village addr.hamlet))).getD "") = ProviderResponse.failure ∨
      o.citySearch ((pyOr addr.city (pyOr addr.town
        (pyOr addr.village addr.hamlet))).getD "") =
          ProviderResponse.success []) :
    NominatimCall.stateQuery (addr.state.getD "") ∈ (geoFallback o).2 := by
  unfold geoFallback
  rw [hr]
  simp only
  rcases hcity with hc | hc | hc
  · rw [if_neg (by simp [hc])]
    exact stateStage_query_mem o _ addr.state hstate
  · by_cases ht : truthyStr (pyOr addr.city (pyOr addr.town
        (pyOr addr.village addr.hamlet))) = true
    · rw [if_pos ht]
      simp only [hc]
      exact stateStage_query_mem o _ addr.state hstate
    · rw [if_neg ht]
      exact stateStage_query_mem o _ addr.state hstate
  · by_cases ht : truthyStr (pyOr addr.city (pyOr addr.town
        (pyOr addr.village addr.hamlet))) = true
    · rw [if_pos ht]
      simp only [hc]
      exact stateStage_query_mem o _ addr.state hstate
    · rw [if_neg ht]
      exact stateStage_query_mem o _ addr.state hstate

/-- A reverse-geocode address locating the origin in Chennai,
Tamil Nadu. -/
def c6Addr : ReverseAddress :=
  { city := some "Chennai"
    town := none
    village := none
    hamlet := none
    state := some "Tamil Nadu"
    country := some "India" }

/-- An oracle on which every free-text provider query returns a 200
response with an empty body. -/
def c6Oracle : GeoOracle :=
  { reverse := ReverseResponse.success c6Addr
    citySearch := fun _ => ProviderResponse.success []
    stateSearch := fun _ => ProviderResponse.success [] }

/-- C6 counterexample: with the bounding-box phase empty and every
free-text query answering 200 with no results, the code issues the
reverse geocode, the city query and the **state-level provider query**
and then returns the structured error — it never consults the static
hospital directory, although the directory holds ten entries for the
locality name "Chennai" (every entry matches because no condition is
given).  The claimed directory stage does not exist in the code. -/
theorem C6_directory_stage_counterexample :
    (get_nearest_health_centers zeroDist [] c6Oracle 13.0827 80.2707 25 20).2 =
      [NominatimCall.reverseGeocode, NominatimCall.cityQuery "Chennai",
        NominatimCall.stateQuery "Tamil Nadu"] ∧
    (get_nearest_health_centers zeroDist [] c6Oracle 13.0827 80.2707 25 20).1 =
      Except.error
        "No health centers found nearby. Please try expanding your search radius." ∧
    (find_hospitals_by_condition_location zeroDist "" "Chennai" none
      none none).totalFound = 10 := by
  refine ⟨rfl, rfl, ?_⟩
  decide

/-- C6 amended: when the bounding-box search returns zero candidates,
the locality stage (one reverse geocode) is attempted exactly once and
first, and a **state-level free-text provider search** (not the static
directory) is attempted whenever the locality stage yields zero usable
results without raising and a truthy state name is known. -/
theorem C6_fallback_cascade_amended (D : ℚ → ℚ → ℚ → ℚ → ℚ) (o : GeoOracle)
    (la lo maxd : ℚ) (maxr : ℕ) :
    ((get_nearest_health_centers D [] o la lo maxd maxr).2.head? =
        some NominatimCall.reverseGeocode ∧
      ∀ c ∈ (get_nearest_health_centers D [] o la lo maxd maxr).2.tail,
        c ≠ NominatimCall.reverseGeocode) ∧
    (∀ addr : ReverseAddress, o.reverse = ReverseResponse.success addr →
      truthyStr addr.state = true →
      (truthyStr (pyOr addr.city (pyOr addr.town
          (pyOr addr.village addr.hamlet))) = false ∨
        o.citySearch ((pyOr addr.city (pyOr addr.town
          (pyOr addr.village addr.hamlet))).getD "") =
            ProviderResponse.failure ∨
        o.citySearch ((pyOr addr.city (pyOr addr.town
          (pyOr addr.village addr.hamlet))).getD "") =
            ProviderResponse.success []) →
      NominatimCall.stateQuery (addr.state.getD "") ∈
        (get_nearest_health_centers D [] o la lo maxd maxr).2) := by
  rw [get_nearest_empty_box_snd]
  exact ⟨geoFallback_log_reverse_once o,
    fun addr hr hs hc => geoFallback_state_attempted o addr hr hs hc⟩

/-- Witness for C6 amended: on the all-empty-responses oracle the state
query for "Tamil Nadu" is indeed attempted. -/
theorem C6_fallback_cascade_amended_witness :
    NominatimCall.stateQuery ((some "Tamil Nadu").getD "") ∈
      (get_nearest_health_centers zeroDist [] c6Oracle 13.0827 80.2707
        25 20).2 :=
  (C6_fallback_cascade_amended zeroDist c6Oracle 13.0827 80.2707 25 20).2
    c6Addr rfl rfl (Or.inr (Or.inr rfl))

/-! ## Claim C7: the explicit no-results signal -/

/-- C7: exhausting search and fallback with an empty candidate list
produces the structured error value (never an empty success list); the
endpoint forwards a search error as a 404 not-found result; and a
non-empty success list is answered with the 200 payload, never a
not-found. -/
theorem C7_empty_candidates_error_signal :
    (∀ (D : ℚ → ℚ → ℚ → ℚ → ℚ) (o : GeoOracle) (la lo maxd : ℚ) (maxr : ℕ),
      (geoFallback o).1 = [] →
      (get_nearest_health_centers D [] o la lo maxd maxr).1 =
        Except.error
          "No health centers found nearby. Please try expanding your search radius.") ∧
    (∀ (R : Type) (route : ℚ → ℚ → ℚ → ℚ → R)
        (searcher : ℚ → ℚ → ℚ → ℕ → Except String (List RankedFacility))
        (la lo maxd : ℚ) (maxr : ℕ) (msg : String),
      truthyQ (some la) = true → truthyQ (some lo) = true →
      -90 ≤ la → la ≤ 90 → -180 ≤ lo → lo ≤ 180 →
      searcher la lo maxd maxr = Except.error msg →
      find_health_centers (some la) (some lo) maxd maxr searcher route =
        HCResponse.notFoundErr msg) ∧
    (∀ (R : Type) (route : ℚ → ℚ → ℚ → ℚ → R)
        (searcher : ℚ → ℚ → ℚ → ℕ → Except String (List RankedFacility))
        (la lo maxd : ℚ) (maxr : ℕ) (c : RankedFacility)
        (cs : List RankedFacility),
      truthyQ (some la) = true → truthyQ (some lo) = true →
      -90 ≤ la → la ≤ 90 → -180 ≤ lo → lo ≤ 180 →
      searcher la lo maxd maxr = Except.ok (c :: cs) →
      find_health_centers (some la) (some lo) maxd maxr searcher route =
        HCResponse.success (c :: cs) (route la lo c.latitude c.longitude)
          ⟨(c :: cs).length, maxd, (la, lo), c.distance⟩) := by
  refine ⟨?_, ?_, ?_⟩
  · intro D o la lo maxd maxr h
    unfold get_nearest_health_centers
    simp [h]
  · intro R route searcher la lo maxd maxr msg h1 h2 h3 h4 h5 h6 hs
    unfold find_health_centers
    rw [if_neg (by simp [h1, h2])]
    simp only
    rw [if_neg (by simp [h3, h4, h5, h6])]
    simp only [Option.getD_some] at hs ⊢
    rw [hs]
  · intro R route searcher la lo maxd maxr c cs h1 h2 h3 h4 h5 h6 hs
    unfold find_health_centers
    rw [if_neg (by simp [h1, h2])]
    simp only
    rw [if_neg (by simp [h3, h4, h5, h6])]
    simp only [Option.getD_some] at hs ⊢
    rw [hs]

/-- An oracle whose reverse geocode gets a non-200 response. -/
def c7FailOracle : GeoOracle :=
  { reverse := ReverseResponse.failure
    citySearch := fun _ => ProviderResponse.success []
    stateSearch := fun _ => ProviderResponse.success [] }

/-- Witness for C7: the three parts instantiated — the failing oracle
yields the structured error, the endpoint maps an error result to the
404 payload, and a singleton success list to the 200 payload. -/
theorem C7_empty_candidates_error_signal_witness :
    ((get_nearest_health_centers zeroDist [] c7FailOracle 13 80 25 20).1 =
      Except.error
        "No health centers found nearby. Please try expanding your search radius.") ∧
    (find_health_centers (some 13) (some 80) 25 20
        (fun _ _ _ _ => Except.error "nothing") (fun _ _ _ _ => ()) =
      HCResponse.notFoundErr "nothing") ∧
    (find_health_centers (some 13) (some 80) 25 20
        (fun _ _ _ _ => Except.ok [buildFacility samplePlaceA 0])
        (fun _ _ _ _ => ()) =
      HCResponse.success [buildFacility samplePlaceA 0]
        (() : Unit)
        ⟨[buildFacility samplePlaceA 0].length, 25, (13, 80),
          (buildFacility samplePlaceA 0).distance⟩) :=
  ⟨C7_empty_candidates_error_signal.1 zeroDist c7FailOracle 13 80 25 20 rfl,
    C7_empty_candidates_error_signal.2.1 Unit (fun _ _ _ _ => ())
      (fun _ _ _ _ => Except.error "nothing") 13 80 25 20 "nothing"
      (by decide) (by decide) (by norm_num) (by norm_num) (by norm_num)
      (by norm_num) rfl,
    C7_empty_candidates_error_signal.2.2 Unit (fun _ _ _ _ => ())
      (fun _ _ _ _ => Except.ok [buildFacility samplePlaceA 0]) 13 80 25 20
      (buildFacility samplePlaceA 0) [] (by decide) (by decide) (by norm_num)
      (by norm_num) (by norm_num) (by norm_num) rfl⟩

/-! ## Claim C10: zero coordinates and truthiness -/

/-- The scored entry built for a hospital does not depend on the user
coordinates when their truthiness test fails. -/
theorem buildHospitalInfo_coords_falsy {D : ℚ → ℚ → ℚ → ℚ → ℚ}
    {rel : List String} {loc : String} {ola olg : Option ℚ}
    (h : coordsTruthy ola olg = false) (hosp : Hospital) :
    buildHospitalInfo D rel loc ola olg hosp =
    buildHospitalInfo D rel loc none none hosp := by
  simp [buildHospitalInfo, h,
    show coordsTruthy (none : Option ℚ) none = false from rfl]

/-- The whole hospital search collapses to the no-coordinates search
when the coordinate truthiness test fails. -/
theorem find_hospitals_coords_falsy (D : ℚ → ℚ → ℚ → ℚ → ℚ)
    (condition location : String) (specialty : Option String)
    (ola olg : Option ℚ) (h : coordsTruthy ola olg = false) :
    find_hospitals_by_condition_location D condition location specialty ola olg =
    find_hospitals_by_condition_location D condition location specialty
      none none := by
  unfold find_hospitals_by_condition_location
  have hb : buildHospitalInfo D (relevantSpecialties condition specialty)
      location ola olg =
      buildHospitalInfo D (relevantSpecialties condition specialty)
        location none none :=
    funext (buildHospitalInfo_coords_falsy h)
  simp only [hb, h,
    show coordsTruthy (none : Option ℚ) none = false from rfl]
  rfl

/-- C10: a zero latitude or longitude fails the truthiness presence test
of the HealthCenters endpoint, which then rejects the request with the
missing-parameter message even though 0 is within the validated ranges;
likewise the hospital search behaves exactly as if no coordinates had
been supplied (no true-distance computation, no proximity bonus, mock
distances, score ordering). -/
theorem C10_zero_coordinates_treated_as_missing :
    (∀ (R : Type) (route : ℚ → ℚ → ℚ → ℚ → R)
        (searcher : ℚ → ℚ → ℚ → ℕ → Except String (List RankedFacility))
        (olg : Option ℚ) (maxd : ℚ) (maxr : ℕ),
      find_health_centers (some 0) olg maxd maxr searcher route =
        HCResponse.badRequest "Latitude and longitude are required") ∧
    (∀ (R : Type) (route : ℚ → ℚ → ℚ → ℚ → R)
        (searcher : ℚ → ℚ → ℚ → ℕ → Except String (List RankedFacility))
        (ola : Option ℚ) (maxd : ℚ) (maxr : ℕ),
      find_health_centers ola (some 0) maxd maxr searcher route =
        HCResponse.badRequest "Latitude and longitude are required") ∧
    ((-90 : ℚ) ≤ 0 ∧ (0 : ℚ) ≤ 90 ∧ (-180 : ℚ) ≤ 0 ∧ (0 : ℚ) ≤ 180) ∧
    (∀ (D : ℚ → ℚ → ℚ → ℚ → ℚ) (condition location : String)
        (specialty : Option String) (olg : Option ℚ),
      find_hospitals_by_condition_location D condition location specialty
        (some 0) olg =
      find_hospitals_by_condition_location D condition location specialty
        none none) ∧
    (∀ (D : ℚ → ℚ → ℚ → ℚ → ℚ) (condition location : String)
        (specialty : Option String) (ola : Option ℚ),
      find_hospitals_by_condition_location D condition location specialty
        ola (some 0) =
      find_hospitals_by_condition_location D condition location specialty
        none none) := by
  refine ⟨?_, ?_, by norm_num, ?_, ?_⟩
  · intro R route searcher olg maxd maxr
    unfold find_health_centers
    rw [if_pos (by simp [truthyQ])]
  · intro R route searcher ola maxd maxr
    unfold find_health_centers
    rw [if_pos (by simp [truthyQ])]
  · intro D condition location specialty olg
    exact find_hospitals_coords_falsy D condition location specialty _ _
      (by simp [coordsTruthy, truthyQ])
  · intro D condition location specialty ola
    exact find_hospitals_coords_falsy D condition location specialty _ _
      (by simp [coordsTruthy, truthyQ])
